import Mathlib

/-!
Verification of the DLSS context-management layer of the Unity-DLSS-RR plugin
(`src/DLSSContext.cpp`, `src/DLSSContext.h`, `src/DLSSPlugin.h`).

The C++ code is shallowly embedded: enum values become `Int` constants with the
values from `DLSSPlugin.h`, the creation-parameter struct becomes a Lean
structure, and the manager's mutable `unordered_map` of contexts becomes an
explicit association list threaded through each operation.  Vendor (NGX SDK)
and D3D12 calls are modelled through an explicit environment `VendorEnv`
supplying their outcomes, and every operation additionally returns the list of
vendor calls it performed, so that "performs no vendor call" is a provable
statement about the trace.
-/

namespace DLSS

/-- Embeds `DLSSResult` from `DLSSPlugin.h` (values 0, -1, ..., -9). -/
inductive DLSSResult where
  | Success
  | Fail_NotInitialized
  | Fail_FeatureNotSupported
  | Fail_InvalidParameter
  | Fail_OutOfMemory
  | Fail_ContextNotFound
  | Fail_ContextAlreadyExists
  | Fail_DriverOutOfDate
  | Fail_PlatformError
  | Fail_NGXError
  deriving DecidableEq, Repr

/-- `DLSS_Mode_Off` from `DLSSPlugin.h`. -/
def DLSS_Mode_Off : Int := 0

/-- `DLSS_Mode_SuperResolution` from `DLSSPlugin.h`. -/
def DLSS_Mode_SuperResolution : Int := 1

/-- `DLSS_Mode_RayReconstruction` from `DLSSPlugin.h`. -/
def DLSS_Mode_RayReconstruction : Int := 2

/-- `DLSS_Quality_MaxPerformance` from `DLSSPlugin.h`. -/
def DLSS_Quality_MaxPerformance : Int := 0

/-- `DLSS_Quality_Balanced` from `DLSSPlugin.h`. -/
def DLSS_Quality_Balanced : Int := 1

/-- `DLSS_Quality_MaxQuality` from `DLSSPlugin.h`. -/
def DLSS_Quality_MaxQuality : Int := 2

/-- `DLSS_Quality_UltraPerformance` from `DLSSPlugin.h`. -/
def DLSS_Quality_UltraPerformance : Int := 3

/-- `DLSS_Quality_UltraQuality` from `DLSSPlugin.h`. -/
def DLSS_Quality_UltraQuality : Int := 4

/-- `DLSS_Quality_DLAA` from `DLSSPlugin.h`. -/
def DLSS_Quality_DLAA : Int := 5

/-- `NVSDK_NGX_PerfQuality_Value_MaxPerf`, mirrored from the NVIDIA NGX SDK
header `nvsdk_ngx_defs.h` (vendor dependency, not part of this repository). -/
def NVSDK_NGX_PerfQuality_Value_MaxPerf : Int := 0

/-- `NVSDK_NGX_PerfQuality_Value_Balanced`, mirrored from `nvsdk_ngx_defs.h`. -/
def NVSDK_NGX_PerfQuality_Value_Balanced : Int := 1

/-- `NVSDK_NGX_PerfQuality_Value_MaxQuality`, mirrored from `nvsdk_ngx_defs.h`. -/
def NVSDK_NGX_PerfQuality_Value_MaxQuality : Int := 2

/-- `NVSDK_NGX_PerfQuality_Value_UltraPerformance`, mirrored from
`nvsdk_ngx_defs.h`. -/
def NVSDK_NGX_PerfQuality_Value_UltraPerformance : Int := 3

/-- `NVSDK_NGX_PerfQuality_Value_UltraQuality`, mirrored from
`nvsdk_ngx_defs.h`. -/
def NVSDK_NGX_PerfQuality_Value_UltraQuality : Int := 4

/-- `NVSDK_NGX_PerfQuality_Value_DLAA`, mirrored from `nvsdk_ngx_defs.h`. -/
def NVSDK_NGX_PerfQuality_Value_DLAA : Int := 5

/-- Embeds `ToNGXPerfQuality` (`DLSSContext.cpp`, lines 145-164).  The C
function takes the `DLSSQuality` enum; since the value arrives via C interop it
can be any integer, and the switch's `default` branch handles the rest. -/
def ToNGXPerfQuality (quality : Int) : Int :=
  if quality = DLSS_Quality_MaxPerformance then NVSDK_NGX_PerfQuality_Value_MaxPerf
  else if quality = DLSS_Quality_Balanced then NVSDK_NGX_PerfQuality_Value_Balanced
  else if quality = DLSS_Quality_MaxQuality then NVSDK_NGX_PerfQuality_Value_MaxQuality
  else if quality = DLSS_Quality_UltraPerformance then NVSDK_NGX_PerfQuality_Value_UltraPerformance
  else if quality = DLSS_Quality_UltraQuality then NVSDK_NGX_PerfQuality_Value_UltraQuality
  else if quality = DLSS_Quality_DLAA then NVSDK_NGX_PerfQuality_Value_DLAA
  else NVSDK_NGX_PerfQuality_Value_Balanced

/-- The six defined `DLSSQuality` enum values from `DLSSPlugin.h`. -/
def definedQualities : List Int := [0, 1, 2, 3, 4, 5]

/-- `DLSSDimensions` from `DLSSPlugin.h` (two `uint32_t` fields). -/
structure DLSSDimensions where
  width : Nat
  height : Nat
  deriving DecidableEq, Repr

/-- Embeds `DLSSContextCreateParams` from `DLSSPlugin.h`.  Enum-typed fields
are kept as `Int` (their C interop representation); `featureFlags` is the
`uint32_t` bitmask; `enableOutputSubrects` is the `uint8_t` field. -/
structure DLSSContextCreateParams where
  mode : Int
  quality : Int
  inputResolution : DLSSDimensions
  outputResolution : DLSSDimensions
  featureFlags : Nat
  presetDLAA : Int
  presetQuality : Int
  presetBalanced : Int
  presetPerformance : Int
  presetUltraPerformance : Int
  presetUltraQuality : Int
  denoiseMode : Int
  depthType : Int
  roughnessMode : Int
  presetRR_DLAA : Int
  presetRR_Quality : Int
  presetRR_Balanced : Int
  presetRR_Performance : Int
  presetRR_UltraPerformance : Int
  presetRR_UltraQuality : Int
  enableOutputSubrects : Nat
  deriving DecidableEq, Repr

/-- The zero-valued `DLSSContextCreateParams`, i.e. the C++ `m_params = {}`. -/
def DLSSContextCreateParams.zero : DLSSContextCreateParams :=
  { mode := 0, quality := 0
    inputResolution := { width := 0, height := 0 }
    outputResolution := { width := 0, height := 0 }
    featureFlags := 0
    presetDLAA := 0, presetQuality := 0, presetBalanced := 0
    presetPerformance := 0, presetUltraPerformance := 0, presetUltraQuality := 0
    denoiseMode := 0, depthType := 0, roughnessMode := 0
    presetRR_DLAA := 0, presetRR_Quality := 0, presetRR_Balanced := 0
    presetRR_Performance := 0, presetRR_UltraPerformance := 0
    presetRR_UltraQuality := 0
    enableOutputSubrects := 0 }

/-- Embeds `DLSSContext::NeedsRecreation` (`DLSSContext.cpp`, lines 441-469).
`m_params` is the stored creation snapshot, `newParams` the candidate set.
The input-resolution guard returns true when the stored dimension is strictly
LESS than the new one (the feature was created for a smaller input). -/
def NeedsRecreation (m_params newParams : DLSSContextCreateParams) : Bool :=
  if m_params.mode ≠ newParams.mode then true
  else if m_params.outputResolution.width ≠ newParams.outputResolution.width ∨
          m_params.outputResolution.height ≠ newParams.outputResolution.height then true
  else if m_params.inputResolution.width < newParams.inputResolution.width ∨
          m_params.inputResolution.height < newParams.inputResolution.height then true
  else if m_params.quality ≠ newParams.quality then true
  else if m_params.featureFlags ≠ newParams.featureFlags then true
  else if newParams.mode = DLSS_Mode_RayReconstruction then
    if m_params.denoiseMode ≠ newParams.denoiseMode then true
    else if m_params.depthType ≠ newParams.depthType then true
    else if m_params.roughnessMode ≠ newParams.roughnessMode then true
    else false
  else false

/-- `NVSDK_NGX_Result_Success = 0x1`, mirrored from `nvsdk_ngx_defs.h`. -/
def NVSDK_NGX_Result_Success : Int := 1

/-- `NVSDK_NGX_Result_Fail = 0xBAD00000`, mirrored from `nvsdk_ngx_defs.h`,
as the two's-complement `int` value it takes in the `switch (int ngxResult)`
of `TranslateNGXResult` (0xBAD00000 - 2^32). -/
def NVSDK_NGX_Result_Fail : Int := -1160773632

/-- `NVSDK_NGX_Result_FAIL_FeatureNotSupported = Fail | 1`. -/
def NVSDK_NGX_Result_FAIL_FeatureNotSupported : Int := NVSDK_NGX_Result_Fail + 1

/-- `NVSDK_NGX_Result_FAIL_PlatformError = Fail | 2`. -/
def NVSDK_NGX_Result_FAIL_PlatformError : Int := NVSDK_NGX_Result_Fail + 2

/-- `NVSDK_NGX_Result_FAIL_FeatureAlreadyExists = Fail | 3`. -/
def NVSDK_NGX_Result_FAIL_FeatureAlreadyExists : Int := NVSDK_NGX_Result_Fail + 3

/-- `NVSDK_NGX_Result_FAIL_FeatureNotFound = Fail | 4`. -/
def NVSDK_NGX_Result_FAIL_FeatureNotFound : Int := NVSDK_NGX_Result_Fail + 4

/-- `NVSDK_NGX_Result_FAIL_InvalidParameter = Fail | 5`. -/
def NVSDK_NGX_Result_FAIL_InvalidParameter : Int := NVSDK_NGX_Result_Fail + 5

/-- `NVSDK_NGX_Result_FAIL_ScratchBufferTooSmall = Fail | 6`. -/
def NVSDK_NGX_Result_FAIL_ScratchBufferTooSmall : Int := NVSDK_NGX_Result_Fail + 6

/-- `NVSDK_NGX_Result_FAIL_NotInitialized = Fail | 7`. -/
def NVSDK_NGX_Result_FAIL_NotInitialized : Int := NVSDK_NGX_Result_Fail + 7

/-- `NVSDK_NGX_Result_FAIL_UnsupportedInputFormat = Fail | 8`. -/
def NVSDK_NGX_Result_FAIL_UnsupportedInputFormat : Int := NVSDK_NGX_Result_Fail + 8

/-- `NVSDK_NGX_Result_FAIL_RWFlagMissing = Fail | 9`. -/
def NVSDK_NGX_Result_FAIL_RWFlagMissing : Int := NVSDK_NGX_Result_Fail + 9

/-- `NVSDK_NGX_Result_FAIL_MissingInput = Fail | 10`. -/
def NVSDK_NGX_Result_FAIL_MissingInput : Int := NVSDK_NGX_Result_Fail + 10

/-- `NVSDK_NGX_Result_FAIL_UnableToInitializeFeature = Fail | 11`. -/
def NVSDK_NGX_Result_FAIL_UnableToInitializeFeature : Int := NVSDK_NGX_Result_Fail + 11

/-- `NVSDK_NGX_Result_FAIL_OutOfDate = Fail | 12`. -/
def NVSDK_NGX_Result_FAIL_OutOfDate : Int := NVSDK_NGX_Result_Fail + 12

/-- `NVSDK_NGX_Result_FAIL_OutOfGPUMemory = Fail | 13`. -/
def NVSDK_NGX_Result_FAIL_OutOfGPUMemory : Int := NVSDK_NGX_Result_Fail + 13

/-- `NVSDK_NGX_Result_FAIL_UnsupportedFormat = Fail | 14`. -/
def NVSDK_NGX_Result_FAIL_UnsupportedFormat : Int := NVSDK_NGX_Result_Fail + 14

/-- `NVSDK_NGX_Result_FAIL_UnableToWriteToAppDataPath = Fail | 15`. -/
def NVSDK_NGX_Result_FAIL_UnableToWriteToAppDataPath : Int := NVSDK_NGX_Result_Fail + 15

/-- `NVSDK_NGX_Result_FAIL_UnsupportedParameter = Fail | 16`. -/
def NVSDK_NGX_Result_FAIL_UnsupportedParameter : Int := NVSDK_NGX_Result_Fail + 16

/-- `NVSDK_NGX_Result_FAIL_Denied = Fail | 17`. -/
def NVSDK_NGX_Result_FAIL_Denied : Int := NVSDK_NGX_Result_Fail + 17

/-- `NVSDK_NGX_Result_FAIL_NotImplemented = Fail | 18`. -/
def NVSDK_NGX_Result_FAIL_NotImplemented : Int := NVSDK_NGX_Result_Fail + 18

/-- The `NVSDK_NGX_FAILED(value)` macro from `nvsdk_ngx_defs.h`:
`((value & 0xFFF00000) == NVSDK_NGX_Result_Fail)`, where the `int` operand is
converted to `unsigned int` (reduction mod 2^32) by the bitwise `&`. -/
def NVSDK_NGX_FAILED (value : Int) : Bool :=
  ((value % 4294967296).toNat &&& 0xFFF00000) = 0xBAD00000

/-- The outcome of `DLSSContextManager::TranslateNGXResult`: the returned
`DLSSResult` together with the `errorDesc` and `suggestion` strings it selects
(`none` on the early success return, where no lookup or error logging is
performed; otherwise these strings are passed to `DLSS_LOG_ERROR`). -/
structure TranslateOutcome where
  result : DLSSResult
  errorDesc : Option String
  suggestion : Option String
  deriving DecidableEq, Repr

/-- Embeds `DLSSContextManager::TranslateNGXResult` (`DLSSContext.cpp`, lines
1101-1239): early success return, then a switch over the known NGX failure
codes, with a `default` branch mapping everything else to `Fail_NGXError`. -/
def TranslateNGXResult (ngxResult : Int) : TranslateOutcome :=
  if ngxResult = NVSDK_NGX_Result_Success then
    { result := .Success, errorDesc := none, suggestion := none }
  else if ngxResult = NVSDK_NGX_Result_FAIL_FeatureNotSupported then
    { result := .Fail_FeatureNotSupported, errorDesc := some "Feature not supported",
      suggestion := some "Check GPU compatibility (requires NVIDIA RTX) and driver version" }
  else if ngxResult = NVSDK_NGX_Result_FAIL_PlatformError then
    { result := .Fail_PlatformError, errorDesc := some "Platform error",
      suggestion := some "Ensure D3D12 device is valid and properly initialized" }
  else if ngxResult = NVSDK_NGX_Result_FAIL_FeatureAlreadyExists then
    { result := .Fail_ContextAlreadyExists, errorDesc := some "Feature already exists",
      suggestion := some "Destroy existing context before creating a new one with same ID" }
  else if ngxResult = NVSDK_NGX_Result_FAIL_FeatureNotFound then
    { result := .Fail_ContextNotFound, errorDesc := some "Feature not found",
      suggestion := some "Ensure context was created before executing" }
  else if ngxResult = NVSDK_NGX_Result_FAIL_InvalidParameter then
    { result := .Fail_InvalidParameter, errorDesc := some "Invalid parameter",
      suggestion := some "Check input textures, resolutions, and parameter values" }
  else if ngxResult = NVSDK_NGX_Result_FAIL_ScratchBufferTooSmall then
    { result := .Fail_InvalidParameter, errorDesc := some "Scratch buffer too small",
      suggestion := some "Internal buffer allocation issue - try recreating context" }
  else if ngxResult = NVSDK_NGX_Result_FAIL_NotInitialized then
    { result := .Fail_NotInitialized, errorDesc := some "NGX not initialized",
      suggestion := some "Call DLSS_Initialize() before using DLSS features" }
  else if ngxResult = NVSDK_NGX_Result_FAIL_UnsupportedInputFormat then
    { result := .Fail_InvalidParameter, errorDesc := some "Unsupported input format",
      suggestion := some "Check texture formats - DLSS requires specific formats (e.g., RGBA16F for color)" }
  else if ngxResult = NVSDK_NGX_Result_FAIL_RWFlagMissing then
    { result := .Fail_InvalidParameter, errorDesc := some "Read/Write flag missing on resource",
      suggestion := some "Ensure output texture has UAV (unordered access) flag enabled" }
  else if ngxResult = NVSDK_NGX_Result_FAIL_MissingInput then
    { result := .Fail_InvalidParameter, errorDesc := some "Required input missing",
      suggestion := some "Provide all required textures (color, depth, motion vectors, output)" }
  else if ngxResult = NVSDK_NGX_Result_FAIL_UnableToInitializeFeature then
    { result := .Fail_NGXError, errorDesc := some "Unable to initialize feature",
      suggestion := some "DLSS model files may be missing or corrupted - reinstall DLSS DLLs" }
  else if ngxResult = NVSDK_NGX_Result_FAIL_OutOfDate then
    { result := .Fail_DriverOutOfDate, errorDesc := some "Driver or SDK out of date",
      suggestion := some "Update NVIDIA driver to latest version (minimum 531.0 for SR, 545.0 for RR)" }
  else if ngxResult = NVSDK_NGX_Result_FAIL_OutOfGPUMemory then
    { result := .Fail_OutOfMemory, errorDesc := some "Out of GPU memory",
      suggestion := some "Reduce resolution, quality preset, or free GPU memory" }
  else if ngxResult = NVSDK_NGX_Result_FAIL_UnsupportedFormat then
    { result := .Fail_InvalidParameter, errorDesc := some "Unsupported texture format",
      suggestion := some "Use compatible formats: RGBA16F/RGBA32F for color, R32F/D32F for depth" }
  else if ngxResult = NVSDK_NGX_Result_FAIL_UnableToWriteToAppDataPath then
    { result := .Fail_PlatformError, errorDesc := some "Unable to write to app data path",
      suggestion := some "Check write permissions for DLSS log/cache directory" }
  else if ngxResult = NVSDK_NGX_Result_FAIL_UnsupportedParameter then
    { result := .Fail_InvalidParameter, errorDesc := some "Unsupported parameter value",
      suggestion := some "Check quality preset, feature flags, and mode settings" }
  else if ngxResult = NVSDK_NGX_Result_FAIL_Denied then
    { result := .Fail_FeatureNotSupported, errorDesc := some "Feature access denied",
      suggestion := some "DLSS may be disabled by driver settings or application profile" }
  else if ngxResult = NVSDK_NGX_Result_FAIL_NotImplemented then
    { result := .Fail_FeatureNotSupported, errorDesc := some "Feature not implemented",
      suggestion := some "This feature may not be available in current SDK/driver version" }
  else
    { result := .Fail_NGXError, errorDesc := some "Unknown NGX error",
      suggestion := some "Check NGX error code for details" }

/-- The 18 NGX failure codes recognized by the `switch` in
`TranslateNGXResult` (`DLSSContext.cpp`, lines 1114-1222). -/
def knownNGXFailureCodes : List Int :=
  [NVSDK_NGX_Result_FAIL_FeatureNotSupported,
   NVSDK_NGX_Result_FAIL_PlatformError,
   NVSDK_NGX_Result_FAIL_FeatureAlreadyExists,
   NVSDK_NGX_Result_FAIL_FeatureNotFound,
   NVSDK_NGX_Result_FAIL_InvalidParameter,
   NVSDK_NGX_Result_FAIL_ScratchBufferTooSmall,
   NVSDK_NGX_Result_FAIL_NotInitialized,
   NVSDK_NGX_Result_FAIL_UnsupportedInputFormat,
   NVSDK_NGX_Result_FAIL_RWFlagMissing,
   NVSDK_NGX_Result_FAIL_MissingInput,
   NVSDK_NGX_Result_FAIL_UnableToInitializeFeature,
   NVSDK_NGX_Result_FAIL_OutOfDate,
   NVSDK_NGX_Result_FAIL_OutOfGPUMemory,
   NVSDK_NGX_Result_FAIL_UnsupportedFormat,
   NVSDK_NGX_Result_FAIL_UnableToWriteToAppDataPath,
   NVSDK_NGX_Result_FAIL_UnsupportedParameter,
   NVSDK_NGX_Result_FAIL_Denied,
   NVSDK_NGX_Result_FAIL_NotImplemented]

/-- Embeds the `DLSSContext` class state (`DLSSContext.h`): the NGX feature
handle `m_handle` (modelled as an optional abstract handle id) and the stored
creation snapshot `m_params`. -/
structure DLSSContext where
  handle : Option Nat
  m_params : DLSSContextCreateParams
  deriving DecidableEq, Repr

/-- One vendor (NGX) or D3D12 call performed by an operation, recorded in the
order the C++ code issues it. -/
inductive VendorCall where
  | d3dCreateCmdAllocator
  | d3dCreateCmdList
  | ngxCreateSR
  | ngxCreateRR
  | ngxEvaluateSR
  | ngxEvaluateRR
  | ngxRelease
  deriving DecidableEq, Repr

/-- Environment supplying the outcomes of external (vendor SDK and D3D12)
calls: whether `GetNGXParams()` is non-null, the HRESULTs of the two D3D12
command-object creations, the `NVSDK_NGX_Result` of the feature-creation call,
the id of the handle it would produce, and the result of the evaluate call. -/
structure VendorEnv where
  ngxParamsAvailable : Bool
  cmdAllocOk : Bool
  cmdListOk : Bool
  ngxCreateResult : Int
  ngxNewHandle : Nat
  ngxEvalResult : Int
  deriving DecidableEq, Repr

/-- Embeds the `DLSSContextManager` state relevant to the registry claims:
the `m_initialized` flag and the `m_contexts` map (`unordered_map<uint32_t,
unique_ptr<DLSSContext>>`), modelled as an association list with unique keys. -/
structure ManagerState where
  initialized : Bool
  contexts : List (Nat × DLSSContext)
  deriving DecidableEq, Repr

/-- `m_contexts.find(viewId)` on the association list. -/
def findCtx (contexts : List (Nat × DLSSContext)) (viewId : Nat) : Option DLSSContext :=
  match contexts.find? (fun p => p.1 == viewId) with
  | some p => some p.2
  | none => none

/-- `m_contexts.erase(it)` for the entry keyed `viewId` (keys are unique in
the C++ map, so removing every pair with that key is the same operation). -/
def eraseCtx (contexts : List (Nat × DLSSContext)) (viewId : Nat) : List (Nat × DLSSContext) :=
  contexts.filter (fun p => p.1 != viewId)

/-- `m_contexts[viewId] = std::move(context)` — in `CreateContext` this runs
only when the key is absent, so it is a plain insertion. -/
def insertCtx (contexts : List (Nat × DLSSContext)) (viewId : Nat) (ctx : DLSSContext) :
    List (Nat × DLSSContext) :=
  (viewId, ctx) :: contexts

/-- Embeds `DLSSContext::Destroy` (`DLSSContext.cpp`, lines 394-402): release
the NGX feature if a handle is held, clear the handle, zero the snapshot. -/
def ContextDestroy (ctx : DLSSContext) : DLSSContext × List VendorCall :=
  ({ handle := none, m_params := DLSSContextCreateParams.zero },
   if ctx.handle.isSome then [.ngxRelease] else [])

/-- Embeds `DLSSContext::Create` (`DLSSContext.cpp`, lines 279-392): destroy
any existing handle, fail with `Fail_NotInitialized` if the NGX parameter block
is unavailable, then issue the SR or RR feature-creation call; on NGX failure
the handle is left null and the translated result returned, on success the
handle and the snapshot `m_params = params` are stored. -/
def ContextCreate (env : VendorEnv) (ctx : DLSSContext) (params : DLSSContextCreateParams) :
    DLSSResult × DLSSContext × List VendorCall :=
  let destroyed := ContextDestroy ctx
  let ctx1 := destroyed.1
  let calls0 := destroyed.2
  if ¬ env.ngxParamsAvailable then (.Fail_NotInitialized, ctx1, calls0)
  else
    let createCall : VendorCall :=
      if params.mode = DLSS_Mode_RayReconstruction then .ngxCreateRR else .ngxCreateSR
    let ngxResult := env.ngxCreateResult
    if NVSDK_NGX_FAILED ngxResult then
      ((TranslateNGXResult ngxResult).result,
       { ctx1 with handle := none }, calls0 ++ [createCall])
    else
      (.Success, { handle := some env.ngxNewHandle, m_params := params },
       calls0 ++ [createCall])

/-- Embeds `DLSSContext::Execute` (`DLSSContext.cpp`, lines 404-439): fail
with `Fail_ContextNotFound` on a null handle, `Fail_NotInitialized` when the
NGX parameter block is unavailable, otherwise issue the SR or RR evaluate call
and translate a failing NGX result. -/
def ContextExecute (env : VendorEnv) (ctx : DLSSContext) (mode : Int) :
    DLSSResult × List VendorCall :=
  match ctx.handle with
  | none => (.Fail_ContextNotFound, [])
  | some _ =>
    if ¬ env.ngxParamsAvailable then (.Fail_NotInitialized, [])
    else
      let evalCall : VendorCall :=
        if mode = DLSS_Mode_RayReconstruction then .ngxEvaluateRR else .ngxEvaluateSR
      if NVSDK_NGX_FAILED env.ngxEvalResult then
        ((TranslateNGXResult env.ngxEvalResult).result, [evalCall])
      else
        (.Success, [evalCall])

/-- Embeds `DLSSContextManager::CreateContext` (`DLSSContext.cpp`, lines
917-993): not-initialized guard, already-exists guard, D3D12 command allocator
and command list creation (each failing with `Fail_PlatformError`), then
`DLSSContext::Create` on a fresh context, inserting into the table only when
that returns `Success`. -/
def CreateContext (env : VendorEnv) (s : ManagerState) (viewId : Nat)
    (params : DLSSContextCreateParams) : DLSSResult × ManagerState × List VendorCall :=
  if ¬ s.initialized then (.Fail_NotInitialized, s, [])
  else if (findCtx s.contexts viewId).isSome then (.Fail_ContextAlreadyExists, s, [])
  else if ¬ env.cmdAllocOk then (.Fail_PlatformError, s, [.d3dCreateCmdAllocator])
  else if ¬ env.cmdListOk then
    (.Fail_PlatformError, s, [.d3dCreateCmdAllocator, .d3dCreateCmdList])
  else
    let created := ContextCreate env { handle := none, m_params := DLSSContextCreateParams.zero } params
    let calls := [VendorCall.d3dCreateCmdAllocator, VendorCall.d3dCreateCmdList] ++ created.2.2
    if created.1 ≠ .Success then (created.1, s, calls)
    else (.Success, { s with contexts := insertCtx s.contexts viewId created.2.1 }, calls)

/-- Embeds `DLSSContextManager::DestroyContext` (`DLSSContext.cpp`, lines
995-1010): a missing key returns `Success` with no change; otherwise the entry
is erased (its `unique_ptr` destructor runs `DLSSContext::Destroy`, releasing
the NGX feature when a handle is held). -/
def DestroyContext (s : ManagerState) (viewId : Nat) :
    DLSSResult × ManagerState × List VendorCall :=
  match findCtx s.contexts viewId with
  | none => (.Success, s, [])
  | some ctx =>
    (.Success, { s with contexts := eraseCtx s.contexts viewId },
     if ctx.handle.isSome then [.ngxRelease] else [])

/-- Embeds `DLSSContextManager::UpdateContext` (`DLSSContext.cpp`, lines
1024-1052): `Fail_ContextNotFound` when the view is missing; `Success` with no
further work when `NeedsRecreation` is false; otherwise the old entry is
erased first and the full `CreateContext` is re-run for the view. -/
def UpdateContext (env : VendorEnv) (s : ManagerState) (viewId : Nat)
    (params : DLSSContextCreateParams) : DLSSResult × ManagerState × List VendorCall :=
  match findCtx s.contexts viewId with
  | none => (.Fail_ContextNotFound, s, [])
  | some ctx =>
    if ¬ NeedsRecreation ctx.m_params params then (.Success, s, [])
    else
      let relCalls : List VendorCall := if ctx.handle.isSome then [.ngxRelease] else []
      let s1 : ManagerState := { s with contexts := eraseCtx s.contexts viewId }
      let created := CreateContext env s1 viewId params
      (created.1, created.2.1, relCalls ++ created.2.2)

/-- Embeds `DLSSContextManager::Execute` (`DLSSContext.cpp`, lines 1054-1093):
not-initialized guard, null-command-list guard (`Fail_InvalidParameter`),
missing-view guard (`Fail_ContextNotFound`), then delegation to
`DLSSContext::Execute`.  `cmdListNull` models `cmdList == nullptr`; `mode` is
the `params.mode` field of the execute parameters. -/
def ManagerExecute (env : VendorEnv) (s : ManagerState) (viewId : Nat)
    (cmdListNull : Bool) (mode : Int) : DLSSResult × List VendorCall :=
  if ¬ s.initialized then (.Fail_NotInitialized, [])
  else if cmdListNull then (.Fail_InvalidParameter, [])
  else
    match findCtx s.contexts viewId with
    | none => (.Fail_ContextNotFound, [])
    | some ctx => ContextExecute env ctx mode

/-- `NVSDK_NGX_Application_Identifier_Type` from `nvsdk_ngx_defs.h`. -/
inductive NGXIdentifierType where
  | projectIdType
  | applicationIdType
  deriving DecidableEq, Repr

/-- The `NVSDK_NGX_Application_Identifier` struct built (and, in this code,
never consumed) by `InitializeNGX`: identifier type plus either the project
description fields or the numeric application id. -/
structure NGXAppIdentifier where
  identifierType : NGXIdentifierType
  projectIdField : Option String
  engineVersionField : Option String
  applicationIdField : Option Nat
  deriving DecidableEq, Repr

/-- `NVSDK_NGX_ENGINE_TYPE_UNITY`, mirrored from `nvsdk_ngx_defs.h`. -/
def NVSDK_NGX_ENGINE_TYPE_UNITY : Nat := 2

/-- The identity-carrying D3D12 initialization entry points of the vendor SDK:
`NVSDK_NGX_D3D12_Init_with_ProjectID` (project-ID identity) and
`NVSDK_NGX_D3D12_Init` (numeric application-ID identity).  The code under
analysis only ever invokes the project-ID variant. -/
inductive NGXInitCall where
  | initWithProjectID (projectId : String) (engineType : Nat) (engineVersion : String)
  | initWithAppID (appId : Nat)
  deriving DecidableEq, Repr

/-- What `DLSSContextManager::InitializeNGX` (`DLSSContext.cpp`, lines
677-717) computes before the first NGX failure can occur: the
`NVSDK_NGX_Application_Identifier` it fills in, and the vendor initialization
call it actually issues. -/
structure NGXInitTrace where
  appIdentifier : NGXAppIdentifier
  vendorCall : NGXInitCall
  deriving DecidableEq, Repr

/-- Embeds the identifier setup and the vendor init call of
`DLSSContextManager::InitializeNGX` (`DLSSContext.cpp`, lines 677-717).
`projectId = none` models a null `const char*`; `some ""` an empty string.
The `appIdentifier` follows the `projectId && projectId[0]` branch; the
vendor call is `NVSDK_NGX_D3D12_Init_with_ProjectID(projectId ? projectId :
"", NVSDK_NGX_ENGINE_TYPE_UNITY, engineVersion ? engineVersion : "1.0", ...)`
regardless of that branch, and `appId` is not passed to it. -/
def initializeNGX (appId : Nat) (projectId : Option String)
    (engineVersion : Option String) : NGXInitTrace :=
  let projectIdNonEmpty : Bool :=
    match projectId with
    | some s => s ≠ ""
    | none => false
  let appIdentifier : NGXAppIdentifier :=
    if projectIdNonEmpty then
      { identifierType := .projectIdType
        projectIdField := projectId
        engineVersionField := some (engineVersion.getD "1.0")
        applicationIdField := none }
    else
      { identifierType := .applicationIdType
        projectIdField := none
        engineVersionField := none
        applicationIdField := some appId }
  { appIdentifier := appIdentifier
    vendorCall := .initWithProjectID (projectId.getD "") NVSDK_NGX_ENGINE_TYPE_UNITY
      (engineVersion.getD "1.0") }

/-- Erasing a key makes a subsequent lookup of that key fail. -/
theorem findCtx_eraseCtx (contexts : List (Nat × DLSSContext)) (viewId : Nat) :
    findCtx (eraseCtx contexts viewId) viewId = none := by
  induction contexts with
  | nil => rfl
  | cons p t ih =>
    by_cases h : p.1 = viewId
    · simpa [eraseCtx, h] using ih
    · simpa [eraseCtx, findCtx, List.find?, h] using ih

/-- A sample creation-parameter set: SR mode, MaxQuality, 1920x1080 input,
3840x2160 output. -/
def c1Stored : DLSSContextCreateParams :=
  { DLSSContextCreateParams.zero with
      mode := DLSS_Mode_SuperResolution
      quality := DLSS_Quality_MaxQuality
      inputResolution := { width := 1920, height := 1080 }
      outputResolution := { width := 3840, height := 2160 } }

/-- Identical to `c1Stored` except the input resolution is 1280x720. -/
def c1New : DLSSContextCreateParams :=
  { c1Stored with inputResolution := { width := 1280, height := 720 } }

/-- C1 counterexample: with stored input 1920x1080 and a new parameter set
identical except for input resolution 1280x720 (a strict shrink in both
dimensions), `NeedsRecreation` returns false, where the claim demands true;
and with stored 1280x720 and new 1920x1080 (a strict growth) it returns true,
where the claim demands false.  The claimed direction of the asymmetric
input-resolution policy is the reverse of what the code implements. -/
theorem C1_counterexample :
    NeedsRecreation c1Stored c1New = false ∧ NeedsRecreation c1New c1Stored = true := by
  decide

/-- C1 (amended): for every stored snapshot and new parameter set with mode,
output resolution, quality, feature flags and the RR fields all equal,
`NeedsRecreation` returns true exactly when the new input resolution is
strictly larger than the stored one in either dimension (and hence false when
the new input resolution is smaller than or equal in both dimensions). -/
theorem C1_needsRecreation_input_growth
    (stored newP : DLSSContextCreateParams)
    (hmode : stored.mode = newP.mode)
    (hout : stored.outputResolution = newP.outputResolution)
    (hq : stored.quality = newP.quality)
    (hf : stored.featureFlags = newP.featureFlags)
    (hden : stored.denoiseMode = newP.denoiseMode)
    (hdep : stored.depthType = newP.depthType)
    (hrough : stored.roughnessMode = newP.roughnessMode) :
    NeedsRecreation stored newP =
      (decide (stored.inputResolution.width < newP.inputResolution.width) ||
       decide (stored.inputResolution.height < newP.inputResolution.height)) := by
  by_cases hw : stored.inputResolution.width < newP.inputResolution.width <;>
    by_cases hh : stored.inputResolution.height < newP.inputResolution.height <;>
      simp [NeedsRecreation, hmode, hout, hq, hf, hden, hdep, hrough, hw, hh]

/-- Witness for C1's amended theorem at stored input 1280x720 and new input
1920x1080: the input grows, so recreation is required. -/
theorem C1_needsRecreation_input_growth_witness :
    NeedsRecreation c1New c1Stored = true :=
  (C1_needsRecreation_input_growth c1New c1Stored rfl rfl rfl rfl rfl rfl rfl).trans
    (by decide)

/-- C9: `ToNGXPerfQuality` is injective on the six defined quality tiers, in
particular MaxPerformance and UltraPerformance map to different vendor
constants, and every undefined input maps to the balanced default code. -/
theorem C9_perfQuality_injective :
    (∀ a ∈ definedQualities, ∀ b ∈ definedQualities,
        ToNGXPerfQuality a = ToNGXPerfQuality b → a = b) ∧
    ToNGXPerfQuality DLSS_Quality_MaxPerformance ≠
      ToNGXPerfQuality DLSS_Quality_UltraPerformance ∧
    (∀ q : Int, q ∉ definedQualities →
        ToNGXPerfQuality q = NVSDK_NGX_PerfQuality_Value_Balanced) := by
  refine ⟨by decide, by decide, ?_⟩
  intro q hq
  simp only [definedQualities, List.mem_cons, List.not_mem_nil, or_false, not_or] at hq
  obtain ⟨h0, h1, h2, h3, h4, h5⟩ := hq
  simp [ToNGXPerfQuality, DLSS_Quality_MaxPerformance, DLSS_Quality_Balanced,
    DLSS_Quality_MaxQuality, DLSS_Quality_UltraPerformance, DLSS_Quality_UltraQuality,
    DLSS_Quality_DLAA, h0, h1, h2, h3, h4, h5]

/-- Witness for C9 at the undefined quality value 99: it maps to the balanced
default vendor code. -/
theorem C9_perfQuality_injective_witness :
    ToNGXPerfQuality 99 = NVSDK_NGX_PerfQuality_Value_Balanced :=
  C9_perfQuality_injective.2.2 99 (by decide)

/-- C2: `TranslateNGXResult` is total - each of the 18 recognized vendor
failure codes maps to a non-Success result, every other code except the
vendor success code maps to the catch-all `Fail_NGXError` outcome, and the
vendor success code maps to `Success` with no description selected (the
`errorDesc`/`suggestion` strings driving the error logging stay `none`). -/
theorem C2_translate_total :
    (∀ c ∈ knownNGXFailureCodes, (TranslateNGXResult c).result ≠ DLSSResult.Success) ∧
    (∀ n : Int, n ∉ knownNGXFailureCodes → n ≠ NVSDK_NGX_Result_Success →
        TranslateNGXResult n =
          { result := .Fail_NGXError, errorDesc := some "Unknown NGX error",
            suggestion := some "Check NGX error code for details" }) ∧
    TranslateNGXResult NVSDK_NGX_Result_Success =
      { result := .Success, errorDesc := none, suggestion := none } := by
  refine ⟨by decide, ?_, by decide⟩
  intro n hn hns
  simp only [knownNGXFailureCodes, List.mem_cons, List.not_mem_nil, or_false, not_or] at hn
  obtain ⟨h1, h2, h3, h4, h5, h6, h7, h8, h9, h10, h11, h12, h13, h14, h15, h16, h17, h18⟩ := hn
  unfold TranslateNGXResult
  rw [if_neg hns, if_neg h1, if_neg h2, if_neg h3, if_neg h4, if_neg h5, if_neg h6,
    if_neg h7, if_neg h8, if_neg h9, if_neg h10, if_neg h11, if_neg h12, if_neg h13,
    if_neg h14, if_neg h15, if_neg h16, if_neg h17, if_neg h18]

/-- Witness for C2 at the unrecognized code 0: the catch-all outcome. -/
theorem C2_translate_total_witness :
    TranslateNGXResult 0 =
      { result := .Fail_NGXError, errorDesc := some "Unknown NGX error",
        suggestion := some "Check NGX error code for details" } :=
  C2_translate_total.2.1 0 (by decide) (by decide)

/-- Translating an NGX code for which `NVSDK_NGX_FAILED` holds never yields
`Success` (the early success return fires only on the success code, which is
not a failed code). -/
theorem translateFailed_ne_success (n : Int) (h : NVSDK_NGX_FAILED n = true) :
    (TranslateNGXResult n).result ≠ DLSSResult.Success := by
  by_cases h0 : n = NVSDK_NGX_Result_Success
  · rw [h0] at h
    exact absurd h (by decide)
  by_cases h1 : n = NVSDK_NGX_Result_FAIL_FeatureNotSupported
  · rw [h1]; decide
  by_cases h2 : n = NVSDK_NGX_Result_FAIL_PlatformError
  · rw [h2]; decide
  by_cases h3 : n = NVSDK_NGX_Result_FAIL_FeatureAlreadyExists
  · rw [h3]; decide
  by_cases h4 : n = NVSDK_NGX_Result_FAIL_FeatureNotFound
  · rw [h4]; decide
  by_cases h5 : n = NVSDK_NGX_Result_FAIL_InvalidParameter
  · rw [h5]; decide
  by_cases h6 : n = NVSDK_NGX_Result_FAIL_ScratchBufferTooSmall
  · rw [h6]; decide
  by_cases h7 : n = NVSDK_NGX_Result_FAIL_NotInitialized
  · rw [h7]; decide
  by_cases h8 : n = NVSDK_NGX_Result_FAIL_UnsupportedInputFormat
  · rw [h8]; decide
  by_cases h9 : n = NVSDK_NGX_Result_FAIL_RWFlagMissing
  · rw [h9]; decide
  by_cases h10 : n = NVSDK_NGX_Result_FAIL_MissingInput
  · rw [h10]; decide
  by_cases h11 : n = NVSDK_NGX_Result_FAIL_UnableToInitializeFeature
  · rw [h11]; decide
  by_cases h12 : n = NVSDK_NGX_Result_FAIL_OutOfDate
  · rw [h12]; decide
  by_cases h13 : n = NVSDK_NGX_Result_FAIL_OutOfGPUMemory
  · rw [h13]; decide
  by_cases h14 : n = NVSDK_NGX_Result_FAIL_UnsupportedFormat
  · rw [h14]; decide
  by_cases h15 : n = NVSDK_NGX_Result_FAIL_UnableToWriteToAppDataPath
  · rw [h15]; decide
  by_cases h16 : n = NVSDK_NGX_Result_FAIL_UnsupportedParameter
  · rw [h16]; decide
  by_cases h17 : n = NVSDK_NGX_Result_FAIL_Denied
  · rw [h17]; decide
  by_cases h18 : n = NVSDK_NGX_Result_FAIL_NotImplemented
  · rw [h18]; decide
  unfold TranslateNGXResult
  rw [if_neg h0, if_neg h1, if_neg h2, if_neg h3, if_neg h4, if_neg h5, if_neg h6,
    if_neg h7, if_neg h8, if_neg h9, if_neg h10, if_neg h11, if_neg h12, if_neg h13,
    if_neg h14, if_neg h15, if_neg h16, if_neg h17, if_neg h18]
  decide

/-- A vendor environment in which every external call succeeds. -/
def sampleEnv : VendorEnv :=
  { ngxParamsAvailable := true, cmdAllocOk := true, cmdListOk := true
    ngxCreateResult := NVSDK_NGX_Result_Success, ngxNewHandle := 7
    ngxEvalResult := NVSDK_NGX_Result_Success }

/-- A vendor environment in which the NGX feature-creation call fails with
`NVSDK_NGX_Result_FAIL_OutOfGPUMemory`. -/
def failEnv : VendorEnv :=
  { ngxParamsAvailable := true, cmdAllocOk := true, cmdListOk := true
    ngxCreateResult := NVSDK_NGX_Result_FAIL_OutOfGPUMemory, ngxNewHandle := 0
    ngxEvalResult := NVSDK_NGX_Result_Success }

/-- A live context: handle 7 with the `c1Stored` creation snapshot. -/
def sampleCtx : DLSSContext := { handle := some 7, m_params := c1Stored }

/-- An initialized manager with one context registered for view 0. -/
def sampleState : ManagerState := { initialized := true, contexts := [(0, sampleCtx)] }

/-- A manager that has not been initialized. -/
def uninitState : ManagerState := { initialized := false, contexts := [] }

/-- C3: on an initialized registry, `CreateContext` for a view that already
has an entry returns `Fail_ContextAlreadyExists`, leaves the whole table (in
particular the existing context and its stored parameters) unchanged, and
performs no vendor or D3D call. -/
theorem C3_create_existing
    (env : VendorEnv) (s : ManagerState) (v : Nat) (p : DLSSContextCreateParams)
    (hinit : s.initialized = true)
    (hmem : (findCtx s.contexts v).isSome = true) :
    CreateContext env s v p = (.Fail_ContextAlreadyExists, s, []) := by
  simp [CreateContext, hinit, hmem]

/-- Witness for C3: re-creating view 0 of `sampleState` with different
parameters fails and changes nothing. -/
theorem C3_create_existing_witness :
    CreateContext sampleEnv sampleState 0 c1New = (.Fail_ContextAlreadyExists, sampleState, []) :=
  C3_create_existing sampleEnv sampleState 0 c1New rfl (by decide)

/-- C4: a failed creation is atomic.  Whenever `CreateContext` does not
return `Success` the view table is unchanged; whenever `DLSSContext::Create`
does not return `Success` the resulting context's handle is empty; and when
the guards pass but the NGX feature-creation call fails, `CreateContext`
returns exactly the translated (non-Success) failure result. -/
theorem C4_create_failure_atomic
    (env : VendorEnv) (s : ManagerState) (v : Nat) (p : DLSSContextCreateParams)
    (c : DLSSContext) :
    ((CreateContext env s v p).1 ≠ .Success → (CreateContext env s v p).2.1 = s) ∧
    ((ContextCreate env c p).1 ≠ .Success → (ContextCreate env c p).2.1.handle = none) ∧
    (s.initialized = true → findCtx s.contexts v = none →
      env.cmdAllocOk = true → env.cmdListOk = true → env.ngxParamsAvailable = true →
      NVSDK_NGX_FAILED env.ngxCreateResult = true →
      (CreateContext env s v p).1 = (TranslateNGXResult env.ngxCreateResult).result ∧
      (CreateContext env s v p).1 ≠ .Success) := by
  refine ⟨?_, ?_, ?_⟩
  · intro hne
    simp only [CreateContext] at hne ⊢
    split_ifs at hne ⊢ <;> first | rfl | exact absurd rfl hne
  · intro hne
    simp only [ContextCreate, ContextDestroy] at hne ⊢
    split_ifs at hne ⊢ <;> first | rfl | exact absurd rfl hne
  · intro hinit habs halloc hlist hngx hfail
    have hns := translateFailed_ne_success env.ngxCreateResult hfail
    constructor
    · simp [CreateContext, ContextCreate, ContextDestroy, hinit, habs, halloc, hlist,
        hngx, hfail, hns]
    · simp [CreateContext, ContextCreate, ContextDestroy, hinit, habs, halloc, hlist,
        hngx, hfail, hns]

/-- Witness for C4: creating view 5 (absent) under `failEnv` returns the
translated out-of-GPU-memory failure and leaves the table unchanged. -/
theorem C4_create_failure_atomic_witness :
    (CreateContext failEnv sampleState 5 c1New).1 = DLSSResult.Fail_OutOfMemory ∧
    (CreateContext failEnv sampleState 5 c1New).2.1 = sampleState := by
  have h := (C4_create_failure_atomic failEnv sampleState 5 c1New sampleCtx).2.2
    rfl (by decide) rfl rfl rfl (by decide)
  exact ⟨h.1.trans (by decide), (C4_create_failure_atomic failEnv sampleState 5 c1New
    sampleCtx).1 h.2⟩

/-- C5: destroying a view with no entry returns `Success`, leaves the table
unchanged, and performs no vendor release call. -/
theorem C5_destroy_missing (s : ManagerState) (v : Nat)
    (habs : findCtx s.contexts v = none) :
    DestroyContext s v = (.Success, s, []) := by
  simp [DestroyContext, habs]

/-- Witness for C5: destroying the absent view 3 of `sampleState`. -/
theorem C5_destroy_missing_witness :
    DestroyContext sampleState 3 = (.Success, sampleState, []) :=
  C5_destroy_missing sampleState 3 (by decide)

/-- C6: `UpdateContext` returns `Fail_ContextNotFound` when the view has no
entry, and when an entry exists whose snapshot does not require recreation it
returns `Success` leaving the table (hence the stored snapshot) unchanged and
making no vendor call. -/
theorem C6_update_guard (env : VendorEnv) (s : ManagerState) (v : Nat)
    (p : DLSSContextCreateParams) :
    (findCtx s.contexts v = none →
      UpdateContext env s v p = (.Fail_ContextNotFound, s, [])) ∧
    (∀ ctx, findCtx s.contexts v = some ctx → NeedsRecreation ctx.m_params p = false →
      UpdateContext env s v p = (.Success, s, [])) := by
  constructor
  · intro h
    simp [UpdateContext, h]
  · intro ctx h hrec
    simp [UpdateContext, h, hrec]

/-- Witness for C6: updating view 0 of `sampleState` with its own stored
parameters requires no recreation and changes nothing. -/
theorem C6_update_guard_witness :
    UpdateContext sampleEnv sampleState 0 c1Stored = (.Success, sampleState, []) :=
  (C6_update_guard sampleEnv sampleState 0 c1Stored).2 sampleCtx (by decide) (by decide)

/-- C7: the registry's `Execute` fails up front - `Fail_NotInitialized` when
the manager is not initialized, `Fail_InvalidParameter` when the command list
is null (manager initialized), `Fail_ContextNotFound` when the view has no
entry (manager initialized, command list non-null) - and in each of these
cases no vendor evaluation call is performed. -/
theorem C7_execute_guards (env : VendorEnv) (s : ManagerState) (v : Nat)
    (cmdListNull : Bool) (mode : Int) :
    (s.initialized = false →
      ManagerExecute env s v cmdListNull mode = (.Fail_NotInitialized, [])) ∧
    (s.initialized = true → cmdListNull = true →
      ManagerExecute env s v cmdListNull mode = (.Fail_InvalidParameter, [])) ∧
    (s.initialized = true → cmdListNull = false → findCtx s.contexts v = none →
      ManagerExecute env s v cmdListNull mode = (.Fail_ContextNotFound, [])) := by
  refine ⟨?_, ?_, ?_⟩
  · intro h
    simp [ManagerExecute, h]
  · intro h1 h2
    simp [ManagerExecute, h1, h2]
  · intro h1 h2 h3
    simp [ManagerExecute, h1, h2, h3]

/-- Witness for C7: `Execute` on the uninitialized manager fails without any
vendor call. -/
theorem C7_execute_guards_witness :
    ManagerExecute sampleEnv uninitState 0 false 1 = (.Fail_NotInitialized, []) :=
  (C7_execute_guards sampleEnv uninitState 0 false 1).1 rfl

/-- C10: `UpdateContext` is not atomic on failure.  When recreation is needed
and the re-creation's NGX call fails, the call returns the translated failure
(not `Success`) and the view's old context has been erased and not restored:
afterwards the view has no entry at all. -/
theorem C10_update_failure_drops_context
    (env : VendorEnv) (s : ManagerState) (v : Nat) (p : DLSSContextCreateParams)
    (ctx : DLSSContext)
    (hinit : s.initialized = true)
    (hfind : findCtx s.contexts v = some ctx)
    (hrec : NeedsRecreation ctx.m_params p = true)
    (halloc : env.cmdAllocOk = true) (hlist : env.cmdListOk = true)
    (hngx : env.ngxParamsAvailable = true)
    (hfail : NVSDK_NGX_FAILED env.ngxCreateResult = true) :
    (UpdateContext env s v p).1 = (TranslateNGXResult env.ngxCreateResult).result ∧
    (UpdateContext env s v p).1 ≠ .Success ∧
    findCtx (UpdateContext env s v p).2.1.contexts v = none := by
  have hns := translateFailed_ne_success env.ngxCreateResult hfail
  have herase := findCtx_eraseCtx s.contexts v
  refine ⟨?_, ?_, ?_⟩ <;>
    simp [UpdateContext, CreateContext, ContextCreate, ContextDestroy, hfind, hrec,
      hinit, halloc, hlist, hngx, hfail, hns, herase]

/-- A parameter set forcing recreation of `sampleCtx` (quality changes). -/
def c10Params : DLSSContextCreateParams := { c1Stored with quality := DLSS_Quality_Balanced }

/-- Witness for C10: updating view 0 of `sampleState` under `failEnv` returns
the out-of-GPU-memory failure and view 0 ends with no context. -/
theorem C10_update_failure_drops_context_witness :
    (UpdateContext failEnv sampleState 0 c10Params).1 = DLSSResult.Fail_OutOfMemory ∧
    findCtx (UpdateContext failEnv sampleState 0 c10Params).2.1.contexts 0 = none := by
  have h := C10_update_failure_drops_context failEnv sampleState 0 c10Params sampleCtx
    rfl (by decide) (by decide) rfl rfl rfl (by decide)
  exact ⟨h.1.trans (by decide), h.2.2⟩

/-- C8: evaluation of the `InitializeNGX` embedding, exhibiting the
divergence between the identifier it builds and the vendor call it makes.
For every input the vendor initialization call issued is the project-ID
variant; in particular with a null project ID the application identifier is
populated with numeric application-ID identity (appId 12345), yet the vendor
call actually performed is `NVSDK_NGX_D3D12_Init_with_ProjectID` with an
empty project-ID string, and the appId is not passed to the vendor. -/
theorem C8_init_call_always_projectID :
    (∀ (appId : Nat) (projectId engineVersion : Option String),
        (initializeNGX appId projectId engineVersion).vendorCall =
          NGXInitCall.initWithProjectID (projectId.getD "") NVSDK_NGX_ENGINE_TYPE_UNITY
            (engineVersion.getD "1.0")) ∧
    (initializeNGX 12345 none (some "2022.3")).appIdentifier =
      { identifierType := .applicationIdType, projectIdField := none,
        engineVersionField := none, applicationIdField := some 12345 } ∧
    (initializeNGX 12345 none (some "2022.3")).vendorCall =
      NGXInitCall.initWithProjectID "" NVSDK_NGX_ENGINE_TYPE_UNITY "2022.3" := by
  exact ⟨fun _ _ _ => rfl, rfl, rfl⟩

end DLSS
